import Mathlib

/-!
Shallow embedding of `action/phase_correlation.py` (class `PhaseCorrelation`)
together with theorems checking the specification's claims about the on-disk
record layout, the segment-query layer and the analysis-driver loop.

Displacements, correlation strengths and times in seconds are modelled as
rationals; pixel, frame, record and byte counts as naturals.  Line numbers in
the doc comments refer to `action/phase_correlation.py`.
-/

/-! ### Record geometry (Frame-Record Writer/Reader) -/

/-- Rows of one on-disk record: the memmaps at lines 512/514 and 379 all use
`shape = (…, 64+1, 2)`; rows `0 … 63` are grid cells, row `64` holds the
full-frame (global) estimate. -/
def recordRows : Nat := 64 + 1

/-- Columns of one record row: one `(dx, dy)` displacement pair. -/
def recordCols : Nat := 2

/-- Bytes of one element of the `float32` memmapped array. -/
def floatBytes : Nat := 4

/-- Bytes occupied by one analysis-frame record. -/
def bytesPerRecord : Nat := recordRows * recordCols * floatBytes

/-- Size in bytes of the data file created by `_process_movie` in analyze
mode: `np.memmap(self.data_path, dtype=float32, mode=w+,
shape=(dur_strides, 64+1, 2))` (line 514) allocates exactly this. -/
def analyzeFileBytes (dur_strides : Nat) : Nat := dur_strides * bytesPerRecord

/-- Row index of the full-frame estimate inside one record: `fp[idx][64]`
(line 571) on the write side and `mapped[:,64,:]` (line 380) on the read
side. -/
def globalRowIndex : Nat := 64

/-- Row indices of the grid-cell estimates inside one record:
`mapped[:,:64,:]` (line 380). -/
def gridRowIndices : List Nat := List.range 64

/-- Shape of the memmap opened by
`_phasecorr_features_for_segment_from_onset_with_duration` (line 379):
`(dur_frames, 65, 2)` `float32` entries. -/
def queryMapShape (dur_frames : Nat) : Nat × Nat × Nat :=
  (dur_frames, recordRows, recordCols)

/-- Byte offset passed to `np.memmap` by the segment reader (line 379):
`offset=onset_frame`, i.e. the analysis-frame index itself, taken as a count
of bytes. -/
def queryMapByteOffset (onset_frame : Nat) : Nat := onset_frame

/-- Byte offset at which the analysis driver's write `fp[frame_idx] = …`
lands inside the data file: record `frame_idx` of a `(n, 65, 2)` `float32`
memmap starts `frame_idx * 65 * 2 * 4` bytes into the file. -/
def writerRecordByteOffset (frame_idx : Nat) : Nat := frame_idx * bytesPerRecord

/-- Record byte offset asserted by the specification for frame index `f`
(claim C3): `f * 136`. -/
def claimedRecordByteOffset (f : Nat) : Nat := f * 136

/-! ### Named grid views (Segment Query Layer) -/

/-- Grid columns selected by `center_quad_phasecorr_features_for_segment`
(line 294): `[:,[5,6,9,10],…]`. -/
def centerQuadIdx : List Nat := [5, 6, 9, 10]

/-- Grid columns selected by `middle_band_phasecorr_features_for_segment`
(line 314): `[:,4:12,…]`. -/
def middleBandIdx : List Nat := List.range' 4 8

/-- Grid columns selected by `plus_band_phasecorr_features_for_segment`
(line 332): `[:,[1,2,4,5,6,7,8,9,10,11,13,14],…]`. -/
def plusBandIdx : List Nat := [1, 2, 4, 5, 6, 7, 8, 9, 10, 11, 13, 14]

/-- Grid columns exposed by the all-grid view
`gridded_phasecorr_features_for_segment` (line 276), whose data component is
`mapped[:,:64,:]` (line 380): columns `0 … 63`. -/
def gridAllIdx : List Nat := List.range 64

/-- numpy `reshape(rows, -1)`: defined exactly when `rows` is positive and
divides the element count, in which case the second axis is inferred. -/
def reshapeRows (total rows : Nat) : Option (Nat × Nat) :=
  if rows ≠ 0 ∧ total % rows = 0 then some (rows, total / rows) else none

/-- Shape returned by a named-view query for an integral duration of `d`
seconds: the mapped array holds `int(d)` rows (the duration in seconds is
passed straight through as `duration_frames`, lines 294/314/332 calling
line 375), the view keeps `view.length` grid columns of 2 components each,
and the result is reshaped to `int(d*4)` rows (the hard-coded factor 4 in
each named-view method). -/
def viewQueryShape (view : List Nat) (d : Nat) : Option (Nat × Nat) :=
  reshapeRows (d * view.length * 2) (d * 4)

/-- Row count asserted by the specification for every segment query of
duration `d` seconds (claim C4): `d * (frameRate/strideFrames)` rounded
toward zero. -/
def claimedQueryRows (d fps stride_frames : Nat) : Nat := d * (fps / stride_frames)

/-! ### Phase-correlation store policy (Phase Correlation Engine) -/

/-- Confidence gate and normalization applied to every stored displacement
estimate (lines 569-573 for the full frame, lines 603-611 for a grid cell):
when `abs(strength) > 0.01` the raw peak displacement is stored with `dx`
divided by the region width and `dy` by the region height, otherwise the
zero vector is stored. -/
def storedEstimate (ret : ℚ × ℚ) (res : ℚ) (w h : ℚ) : ℚ × ℚ :=
  if 1 / 100 < |res| then (ret.1 / w, ret.2 / h) else (0, 0)

/-! ### Range arithmetic of `_process_movie` (Analysis Driver) -/

/-- Python `int(…)` on a rational: truncation toward zero. -/
def pyInt (q : ℚ) : ℤ := if q < 0 then -⌊-q⌋ else ⌊q⌋

/-- Total media duration in whole seconds,
`dur_total_secs = int(frame_count / fps)` (line 478). -/
def dur_total_secs_of (frame_count fps : Nat) : Nat := frame_count / fps

/-- Effective offset in seconds,
`offset_secs = min(max(ap[offset], 0), dur_total_secs)` (line 485). -/
def offset_secs_of (offset : ℚ) (dur_total_secs : Nat) : ℚ :=
  min (max offset 0) (dur_total_secs : ℚ)

/-- Effective duration in seconds: a negative requested duration selects the
full media (lines 480-483), then
`dur_secs = min(max(dur_secs, 0), dur_total_secs - offset_secs)`
(line 486). -/
def dur_secs_of (duration : ℚ) (dur_total_secs : Nat) (offset_secs : ℚ) : ℚ :=
  min (max (if duration < 0 then (dur_total_secs : ℚ) else duration) 0)
    ((dur_total_secs : ℚ) - offset_secs)

/-- Analysis frames per second as computed by the Python-2 integer division
`fps / stride_frames` (lines 487-488). -/
def strideRate (fps stride_frames : Nat) : Nat := fps / stride_frames

/-- Outcome of the range arithmetic at lines 478-490 of `_process_movie`.
All five integer quantities are nonnegative there (the seconds are clamped
first), hence naturals here. -/
structure AnalysisPlan where
  dur_total_secs : Nat
  offset_secs : ℚ
  dur_secs : ℚ
  offset_strides : Nat
  dur_strides : Nat
  offset_frames : Nat
  dur_frames : Nat
deriving Repr, DecidableEq

/-- Range arithmetic of `_process_movie` (lines 478-490):
`offset_strides = int(offset_secs * (fps / stride_frames))`,
`dur_strides = int(dur_secs * (fps / stride_frames))`,
`offset_frames = offset_strides * stride_frames`,
`dur_frames = dur_strides * stride_frames`.  The data file is allocated with
`dur_strides` records (line 514). -/
def processMovieRange (frame_count fps stride_frames : Nat) (offset duration : ℚ) :
    AnalysisPlan :=
  ⟨dur_total_secs_of frame_count fps,
   offset_secs_of offset (dur_total_secs_of frame_count fps),
   dur_secs_of duration (dur_total_secs_of frame_count fps)
     (offset_secs_of offset (dur_total_secs_of frame_count fps)),
   (pyInt (offset_secs_of offset (dur_total_secs_of frame_count fps) *
     (strideRate fps stride_frames : ℚ))).toNat,
   (pyInt (dur_secs_of duration (dur_total_secs_of frame_count fps)
       (offset_secs_of offset (dur_total_secs_of frame_count fps)) *
     (strideRate fps stride_frames : ℚ))).toNat,
   (pyInt (offset_secs_of offset (dur_total_secs_of frame_count fps) *
     (strideRate fps stride_frames : ℚ))).toNat * stride_frames,
   (pyInt (dur_secs_of duration (dur_total_secs_of frame_count fps)
       (offset_secs_of offset (dur_total_secs_of frame_count fps)) *
     (strideRate fps stride_frames : ℚ))).toNat * stride_frames⟩

/-! ### The processing loop (Analysis Driver) -/

/-- Record indices targeted by `fp[self.frame_idx] = …` over a complete run:
`self.frame_idx` starts at `offset_frames` (line 519), is incremented once
after the priming read (line 545), and the loop then writes record
`frame_idx` and increments while `frame_idx < offset_frames + dur_frames`
(lines 554 and 630). -/
def writeLog (offset_frames dur_frames : Nat) : List Nat :=
  List.range' (offset_frames + 1) (dur_frames - 1)

/-- numpy raises `IndexError` when `fp[idx]` indexes past the first axis of
the memmap. -/
inductive PyErr where
  | indexError
deriving Repr, DecidableEq

/-- The `while self.frame_idx < end_frame` loop (lines 554-637), one
constructor step per iteration: read the next frame (`decode idx`,
line 559); if the decoder yields no frame, stop normally (lines 560-562,
`break`, truncated flag set); otherwise write record `idx` — an index at or
past the `alloc = dur_strides` allocated records raises `IndexError` — and
continue with `idx + 1`.  `fuel` is `end_frame - idx` at entry, one unit per
remaining iteration.  Returns the record indices written in order plus
whether the run was cut short. -/
def loopRun {α : Type} (decode : Nat → Option α) (alloc : Nat) :
    Nat → Nat → Except PyErr (List Nat × Bool)
  | _, 0 => .ok ([], false)
  | idx, fuel + 1 =>
    match decode idx with
    | none => .ok ([], true)
    | some _ =>
      if idx < alloc then
        match loopRun decode alloc (idx + 1) fuel with
        | .ok (rest, truncated) => .ok (idx :: rest, truncated)
        | .error e => .error e
      else .error .indexError

/-- Loop state of the full-frame correlation: `prev_frame_gray` is assigned
once before the loop (line 544); the end-of-iteration assignment at line 631
targets the attribute `self.prev_gray`, which no other code reads, and never
`prev_frame_gray`. -/
structure GlobalCorrState (α : Type) where
  prev_frame_gray : α
  self_prev_gray : Option α

/-- Effect of one loop iteration on the full-frame correlation: the frame
pair handed to `cv2.phaseCorrelateRes` at line 569 is
`(prev_frame_gray, current frame)`, and line 631 stores the current frame
into `self.prev_gray`, leaving `prev_frame_gray` unchanged. -/
def globalCorrStep {α : Type} (s : GlobalCorrState α) (cur : α) :
    (α × α) × GlobalCorrState α :=
  ((s.prev_frame_gray, cur), ⟨s.prev_frame_gray, some cur⟩)

def globalCorrPairsAux {α : Type} (s : GlobalCorrState α) : List α → List (α × α)
  | [] => []
  | cur :: rest =>
    (globalCorrStep s cur).1 :: globalCorrPairsAux (globalCorrStep s cur).2 rest

/-- The sequence of frame pairs given to the full-frame phase correlation
over a run that primes `prev_frame_gray` with `first` (lines 539-544) and
then decodes the frames `rest` inside the loop. -/
def globalCorrPairs {α : Type} (first : α) (rest : List α) : List (α × α) :=
  globalCorrPairsAux ⟨first, none⟩ rest

/-! ### Theorems -/

/-- Claim C1, counterexample: a data file produced by an analysis run with a
single record is 520 bytes, not `1 * 136`, and a record has 65 rows, not
17. -/
theorem c1_record_136_counterexample :
    analyzeFileBytes 1 = 520 ∧ analyzeFileBytes 1 ≠ 1 * 136 ∧ recordRows ≠ 17 := by
  decide

/-- Claim C1, amended: every record of the data file is a row-major 65-by-2
block of 4-byte floats totalling 520 bytes, with the global estimate in the
last row (index 64) and grid cells in rows 0 through 63; a file of `n`
records produced by analysis occupies exactly `n * 520` bytes, and the query
layer maps records with the same 65-by-2 shape. -/
theorem c1_record_layout (n d : Nat) :
    analyzeFileBytes n = n * 520 ∧ bytesPerRecord = 520 ∧
    globalRowIndex = recordRows - 1 ∧ gridRowIndices = List.range (recordRows - 1) ∧
    queryMapShape d = (d, 65, 2) :=
  ⟨rfl, rfl, rfl, rfl, rfl⟩

/-- Claim C3, divergence at onset frame 1: the segment reader maps the file
from byte offset 1 — it passes the frame index itself as `np.memmap`'s byte
`offset` — while the analysis driver wrote record 1 starting at byte 520;
neither offset equals the claimed `1 * 136`. -/
theorem c3_read_write_offset_mismatch :
    queryMapByteOffset 1 = 1 ∧ writerRecordByteOffset 1 = 520 ∧
    queryMapByteOffset 1 ≠ claimedRecordByteOffset 1 ∧
    queryMapByteOffset 1 ≠ writerRecordByteOffset 1 := by
  decide

/-- Claim C7, counterexample: the all-grid view selects 64 grid columns, so
its index set is not `{0,…,15}`, and the plus-band index set is not the
all-grid index set minus the four corners `{0,3,12,15}`. -/
theorem c7_gridall_counterexample :
    gridAllIdx.toFinset ≠ Finset.range 16 ∧
    plusBandIdx.toFinset ≠ gridAllIdx.toFinset \ ({0, 3, 12, 15} : Finset Nat) := by
  decide

/-- Claim C7, amended: `centerQuad = {5,6,9,10}` is a subset of
`middleBand = {4,…,11}`, which is a subset of the all-grid index set; but the
all-grid view covers indices `{0,…,63}`, and the plus-band equals `{0,…,15}`
minus the four corners `{0,3,12,15}` of a 4-by-4 grid — a proper subset of
the all-grid indices minus those corners. -/
theorem c7_view_subsets :
    centerQuadIdx.toFinset ⊆ middleBandIdx.toFinset ∧
    middleBandIdx.toFinset ⊆ gridAllIdx.toFinset ∧
    gridAllIdx.toFinset = Finset.range 64 ∧
    plusBandIdx.toFinset = Finset.range 16 \ ({0, 3, 12, 15} : Finset Nat) ∧
    plusBandIdx.toFinset ⊂ gridAllIdx.toFinset \ ({0, 3, 12, 15} : Finset Nat) := by
  decide

/-- Claim C5: every stored displacement estimate (full frame or grid cell) is
the zero vector when the correlation strength has absolute value at most
0.01, and otherwise is the raw peak displacement with `dx` divided by the
width of the region it was computed over and `dy` divided by that region's
height. -/
theorem c5_confidence_gate (ret : ℚ × ℚ) (res w h : ℚ) :
    (|res| ≤ 1 / 100 → storedEstimate ret res w h = (0, 0)) ∧
    (1 / 100 < |res| → storedEstimate ret res w h = (ret.1 / w, ret.2 / h)) := by
  constructor
  · intro hle
    simp only [storedEstimate]
    rw [if_neg (not_lt.mpr hle)]
  · intro hlt
    simp only [storedEstimate]
    rw [if_pos hlt]

/-- Claim C5, witness: at strength 1 the raw estimate (3, 4) over a 2-by-5
region is stored as (3/2, 4/5); at strength 0 the zero vector is stored. -/
theorem c5_confidence_gate_w :
    storedEstimate (3, 4) 1 2 5 = (3 / 2, 4 / 5) ∧
    storedEstimate (3, 4) 0 2 5 = (0, 0) :=
  ⟨(c5_confidence_gate (3, 4) 1 2 5).2 (by norm_num),
   (c5_confidence_gate (3, 4) 0 2 5).1 (by norm_num)⟩

theorem reshapeRows_exact (d c : Nat) (h4 : 0 < d * 4) :
    reshapeRows (d * 4 * c) (d * 4) = some (d * 4, c) := by
  unfold reshapeRows
  rw [if_pos ⟨Nat.pos_iff_ne_zero.mp h4, Nat.mul_mod_right _ _⟩,
    Nat.mul_div_cancel_left c h4]

/-- Claim C4, counterexample: a 10-second center-quad query configured with
frame rate 24 and stride 1 returns 40 rows, while the claim's formula
`duration * (frameRate/strideFrames)` gives 240. -/
theorem c4_rows_counterexample :
    viewQueryShape centerQuadIdx 10 = some (40, 2) ∧
    claimedQueryRows 10 24 1 = 240 ∧ (40 : Nat) ≠ 240 := by
  decide

/-- Claim C4, amended: for a positive integral duration of `d` seconds, each
named-view query returns `d * 4` rows — the hard-coded legacy factor 4,
independent of the configured frame rate and stride — with one column per
two selected grid cells. -/
theorem c4_view_rows (d : Nat) (hd : 0 < d) :
    viewQueryShape centerQuadIdx d = some (d * 4, 2) ∧
    viewQueryShape middleBandIdx d = some (d * 4, 4) ∧
    viewQueryShape plusBandIdx d = some (d * 4, 6) := by
  have h4 : 0 < d * 4 := by omega
  have hc : d * centerQuadIdx.length * 2 = d * 4 * 2 := by
    simp [centerQuadIdx]
  have hm : d * middleBandIdx.length * 2 = d * 4 * 4 := by
    simp only [middleBandIdx, List.length_range']
    omega
  have hp : d * plusBandIdx.length * 2 = d * 4 * 6 := by
    simp only [plusBandIdx, List.length_cons, List.length_nil]
    omega
  refine ⟨?_, ?_, ?_⟩
  · unfold viewQueryShape
    rw [hc]
    exact reshapeRows_exact d 2 h4
  · unfold viewQueryShape
    rw [hm]
    exact reshapeRows_exact d 4 h4
  · unfold viewQueryShape
    rw [hp]
    exact reshapeRows_exact d 6 h4

/-- Claim C4, witness: a 7-second named-view query returns 28 rows for every
view, whatever the configured frame rate and stride. -/
theorem c4_view_rows_w :
    viewQueryShape centerQuadIdx 7 = some (7 * 4, 2) ∧
    viewQueryShape middleBandIdx 7 = some (7 * 4, 4) ∧
    viewQueryShape plusBandIdx 7 = some (7 * 4, 6) :=
  c4_view_rows 7 (by decide)

/-- Claim C8: for every requested offset and duration (a negative duration
meaning full media) the effective offset seconds computed by
`_process_movie` lie in `[0, T]` and the effective duration seconds lie in
`[0, T - effectiveOffset]`, where `T` is the media's total duration in whole
seconds, so the analyzed range never extends past the media's end. -/
theorem c8_range_clamped (frame_count fps stride_frames : Nat) (offset duration : ℚ) :
    0 ≤ (processMovieRange frame_count fps stride_frames offset duration).offset_secs ∧
    (processMovieRange frame_count fps stride_frames offset duration).offset_secs ≤
      ((processMovieRange frame_count fps stride_frames offset duration).dur_total_secs : ℚ) ∧
    0 ≤ (processMovieRange frame_count fps stride_frames offset duration).dur_secs ∧
    (processMovieRange frame_count fps stride_frames offset duration).dur_secs ≤
      ((processMovieRange frame_count fps stride_frames offset duration).dur_total_secs : ℚ) -
      (processMovieRange frame_count fps stride_frames offset duration).offset_secs := by
  unfold processMovieRange offset_secs_of dur_secs_of
  refine ⟨le_min (le_max_right _ _) (by positivity), min_le_right _ _,
    le_min (le_max_right _ _) ?_, min_le_right _ _⟩
  have h := min_le_right (max offset 0) ((dur_total_secs_of frame_count fps : Nat) : ℚ)
  linarith

/-- Claim C6, counterexample: in a complete run with offset 0 and stride 1
whose file is allocated with 2 records (indices 0 and 1), the loop writes
only record 1; record 0 of the allocated file is written zero times, not
exactly once. -/
theorem c6_record_zero_counterexample :
    writeLog 0 2 = [1] ∧ (writeLog 0 2).count 0 = 0 := by
  decide

/-- Claim C6, amended: in a complete run with effective offset 0 and
stride 1 over a file allocated with `n` records, the record indices 1
through `n - 1` are each written exactly once, in strictly ascending order,
and all writes stay below the allocation; record 0 is never written and
keeps the zero fill of the newly created file. -/
theorem c6_write_once_ascending (n : Nat) :
    (writeLog 0 n).count 0 = 0 ∧
    (∀ i, 1 ≤ i → i < n → (writeLog 0 n).count i = 1) ∧
    (writeLog 0 n).Pairwise (· < ·) ∧
    (∀ i ∈ writeLog 0 n, i < n) := by
  unfold writeLog
  refine ⟨?_, ?_, ?_, ?_⟩
  · rw [List.count_eq_zero]
    intro hmem
    have := (List.mem_range'_1.mp hmem).1
    omega
  · intro i h1 h2
    refine List.count_eq_one_of_mem (List.nodup_range' _ _) ?_
    rw [List.mem_range'_1]
    omega
  · exact List.pairwise_lt_range' _ _ 1 Nat.one_pos
  · intro i hmem
    have := List.mem_range'_1.mp hmem
    omega

/-- Claim C6, witness: with 3 allocated records, record 2 is written exactly
once. -/
theorem c6_write_once_ascending_w : (writeLog 0 3).count 2 = 1 :=
  (c6_write_once_ascending 3).2.1 2 (by decide) (by decide)

/-- Claim C2, failing run: priming with frame 0 and then decoding frames 1
and 2, the full-frame correlation pairs are `(0,1), (0,2)` — every frame is
correlated against the first frame of the range, because line 631 assigns
`self.prev_gray` instead of `prev_frame_gray` — and not the consecutive
pairs `(0,1), (1,2)` the claim describes. -/
theorem c2_global_prev_stale :
    globalCorrPairs 0 [1, 2] = [(0, 1), (0, 2)] ∧
    globalCorrPairs 0 [1, 2] ≠ [(0, 1), (1, 2)] := by
  decide

set_option maxRecDepth 4000 in
/-- Claim C10, failing run: with fps 24, stride 1, a requested offset of 1
second, full duration and a 240-frame (10-second) movie, the data file is
allocated with `dur_strides = 216` records, but the loop runs `frame_idx`
from 25 up to 239 and indexes the memmap with it, so the write at index 216
falls outside the allocated file and raises `IndexError`. -/
theorem c10_write_out_of_bounds :
    (processMovieRange 240 24 1 1 (-1)).offset_frames = 24 ∧
    (processMovieRange 240 24 1 1 (-1)).dur_frames = 216 ∧
    (processMovieRange 240 24 1 1 (-1)).dur_strides = 216 ∧
    loopRun (fun _ => some 0) 216 (24 + 1) (216 - 1) =
      Except.error PyErr.indexError := by
  refine ⟨?_, ?_, ?_, by rfl⟩ <;>
    norm_num [processMovieRange, dur_total_secs_of, offset_secs_of, dur_secs_of,
      strideRate, pyInt, min_def, max_def]
  all_goals decide

/-- Claim C9: if the decoder yields no frame at the loop iteration `j` steps
after the priming frame (all `j` earlier iterations having decoded
successfully and written in-bounds records), the analysis loop stops there
and the operation returns normally — `Except.ok`, no error — with exactly
the records committed before the failure, in order, as the write log. -/
theorem c9_decode_failure_clean_stop {α : Type} (decode : Nat → Option α) (alloc : Nat) :
    ∀ (j idx fuel : Nat), j < fuel →
      (∀ m, m < j → decode (idx + m) ≠ none) →
      (∀ m, m < j → idx + m < alloc) →
      decode (idx + j) = none →
      loopRun decode alloc idx fuel = Except.ok (List.range' idx j, true) := by
  intro j
  induction j with
  | zero =>
    intro idx fuel hj _ _ hfail
    obtain ⟨f, rfl⟩ : ∃ f, fuel = f + 1 := ⟨fuel - 1, by omega⟩
    rw [Nat.add_zero] at hfail
    simp [loopRun, hfail, List.range'_zero]
  | succ k ih =>
    intro idx fuel hj hok hbound hfail
    obtain ⟨f, rfl⟩ : ∃ f, fuel = f + 1 := ⟨fuel - 1, by omega⟩
    have h0 : decode idx ≠ none := by
      have := hok 0 (by omega)
      simpa using this
    obtain ⟨a, ha⟩ := Option.ne_none_iff_exists'.mp h0
    have hlt : idx < alloc := by
      have := hbound 0 (by omega)
      simpa using this
    have hrec : loopRun decode alloc (idx + 1) f = Except.ok (List.range' (idx + 1) k, true) := by
      refine ih (idx + 1) f (by omega) ?_ ?_ ?_
      · intro m hm
        have := hok (m + 1) (by omega)
        have harr : idx + (m + 1) = idx + 1 + m := by omega
        rwa [harr] at this
      · intro m hm
        have := hbound (m + 1) (by omega)
        omega
      · have harr : idx + (k + 1) = idx + 1 + k := by omega
        rwa [harr] at hfail
    rw [loopRun, ha]
    simp only [if_pos hlt, hrec, List.range'_succ]

/-- Claim C9, witness: a decoder that yields frames at indices 0 and 1 and
fails at index 2 makes the loop return normally with exactly records 0 and 1
written and the truncation flag set. -/
theorem c9_decode_failure_clean_stop_w :
    loopRun (fun n => if n < 2 then some 0 else none) 10 0 5 =
      Except.ok (List.range' 0 2, true) :=
  c9_decode_failure_clean_stop (fun n => if n < 2 then some 0 else none) 10 2 0 5
    (by decide) (by decide) (by decide) (by decide)
